import Mathlib

/-!
Verification of the Noise-Alert monitoring engine (src/noise_alert.py).

The Python source is shallowly embedded: pure numeric routines become
Lean functions over `ℝ` (Python floats are modelled as real numbers,
integer truncation made explicit), the lock-protected `SharedState`
class becomes a record with explicit state-passing methods, and the
monitor thread's per-cycle body becomes a function from the cycle's
inputs (the capture result and the playback outcome, which in the
source come from the audio hardware) to the successor state.
-/

/-! ## Shared monitoring state (`class SharedState`) -/

/-- Embedding of `SharedState.__init__` fields (noise_alert.py:120-138).
`tts_engine` is `true` when `pyttsx3.init()` succeeded (the source keeps
the engine object; only its presence matters to the logic), and
`tts_queue` is the FIFO of pending speech messages. -/
structure SharedState where
  threshold : ℚ
  is_monitoring : Bool
  current_db : ℚ
  web_start_requested : Bool
  web_stop_requested : Bool
  tts_engine : Bool
  tts_queue : List String
  deriving Repr, DecidableEq

/-- The state built by `SharedState.__init__` with the default config
(`thresh` −30.0, flags down, empty queue, engine initialized). -/
def SharedState.init : SharedState :=
  { threshold := -30
    is_monitoring := false
    current_db := -100
    web_start_requested := false
    web_stop_requested := false
    tts_engine := true
    tts_queue := [] }

/-- Python's `str.strip()`: drop leading and trailing whitespace.
(`String.trim` is avoided because it does not reduce in the kernel.) -/
def stripChars (l : List Char) : List Char :=
  ((l.dropWhile Char.isWhitespace).reverse.dropWhile Char.isWhitespace).reverse

/-- `message.strip()` on strings. -/
def pyStrip (s : String) : String :=
  String.mk (stripChars s.data)

/-- Stripping removes only whitespace: the result is empty exactly when
every character of the input is whitespace. -/
theorem stripChars_eq_nil_iff (l : List Char) :
    stripChars l = [] ↔ ∀ c ∈ l, c.isWhitespace := by
  simp only [stripChars, List.reverse_eq_nil_iff, List.dropWhile_eq_nil_iff,
    List.mem_reverse]
  constructor
  · intro h c hc
    by_cases hw : c.isWhitespace
    · exact hw
    · have hcA : c ∈ l.dropWhile Char.isWhitespace := by
        rw [← List.takeWhile_append_dropWhile (p := Char.isWhitespace) (l := l)] at hc
        rcases List.mem_append.1 hc with h' | h'
        · exact absurd (List.mem_takeWhile_imp h') hw
        · exact h'
      exact h c hcA
  · intro h c hc
    exact h c ((List.dropWhile_sublist _).subset hc)

/-- A non-whitespace character of the input survives stripping. -/
theorem mem_stripChars_of_not_ws {c : Char} {l : List Char}
    (hc : c ∈ l) (hw : ¬ c.isWhitespace) : c ∈ stripChars l := by
  have h1 : c ∈ l.dropWhile Char.isWhitespace := by
    rw [← List.takeWhile_append_dropWhile (p := Char.isWhitespace) (l := l)] at hc
    rcases List.mem_append.1 hc with h' | h'
    · exact absurd (List.mem_takeWhile_imp h') hw
    · exact h'
  have h2 : c ∈ (l.dropWhile Char.isWhitespace).reverse.dropWhile Char.isWhitespace := by
    have hc' : c ∈ (l.dropWhile Char.isWhitespace).reverse := List.mem_reverse.2 h1
    rw [← List.takeWhile_append_dropWhile (p := Char.isWhitespace)
        (l := (l.dropWhile Char.isWhitespace).reverse)] at hc'
    rcases List.mem_append.1 hc' with h' | h'
    · exact absurd (List.mem_takeWhile_imp h') hw
    · exact h'
  exact List.mem_reverse.2 h2

/-- `pyStrip` yields the empty string exactly on all-whitespace input. -/
theorem pyStrip_eq_empty_iff (s : String) :
    pyStrip s = "" ↔ ∀ c ∈ s.data, c.isWhitespace := by
  rw [← stripChars_eq_nil_iff]
  constructor
  · intro h
    have h' := congrArg String.data h
    simpa [pyStrip] using h'
  · intro h
    show String.mk (stripChars s.data) = ""
    rw [h]

/-- Stripping an already stripped non-empty string keeps it non-empty
(the source strips in `send_message` and again in `add_tts_message`). -/
theorem pyStrip_pyStrip_ne_empty {s : String} (h : pyStrip s ≠ "") :
    pyStrip (pyStrip s) ≠ "" := by
  intro h2
  apply h
  rw [pyStrip_eq_empty_iff] at h2 ⊢
  intro c hc
  by_cases hw : c.isWhitespace
  · exact hw
  · exact absurd (h2 c (mem_stripChars_of_not_ws hc hw)) hw

/-- `SharedState.add_tts_message` (noise_alert.py:152-155): enqueue only
when the TTS engine exists and the stripped message is non-empty. -/
def SharedState.add_tts_message (s : SharedState) (message : String) : SharedState :=
  if s.tts_engine ∧ pyStrip message ≠ "" then
    { s with tts_queue := s.tts_queue ++ [message] }
  else s

/-- `SharedState.check_web_requests` (noise_alert.py:165-171): read both
edge-triggered flags and clear them, all under the lock (modelled as one
atomic state transition). -/
def SharedState.check_web_requests (s : SharedState) : (Bool × Bool) × SharedState :=
  ((s.web_start_requested, s.web_stop_requested),
   { s with web_start_requested := false, web_stop_requested := false })

/-- The `/start_monitoring` handler `start_monitoring_web`
(noise_alert.py:1373-1376): sets the start-requested flag. -/
def start_monitoring_web (s : SharedState) : SharedState :=
  { s with web_start_requested := true }

/-! ## `/send_message` endpoint -/

/-- The JSON payload produced by `send_message` (noise_alert.py:1383-1411):
either `success=true` with a confirmation, or `success=false` with an
error string. -/
structure SendResponse where
  success : Bool
  error : Option String
  message : Option String
  deriving Repr, DecidableEq

/-- `send_message` (noise_alert.py:1383-1411): strip the message, reject
empty and over-500-character messages, otherwise hand the stripped
message to `add_tts_message` and acknowledge. `msg` is
`data.get('message', '')`. -/
def send_message (msg : String) (s : SharedState) : SendResponse × SharedState :=
  let message := pyStrip msg
  if message = "" then
    ({ success := false, error := some "No message provided", message := none }, s)
  else if message.length > 500 then
    ({ success := false, error := some "Message too long (max 500 characters)",
       message := none }, s)
  else
    ({ success := true, error := none, message := some "Message queued for speech" },
     s.add_tts_message message)

/-- C2: a single `requestStart` (`start_monitoring_web`) followed by two
`consumeRequests` (`check_web_requests`) with no intervening requests
yields `(true, false)` then `(false, false)`: the request is delivered
exactly once and both flags are cleared on read. -/
theorem c2_start_request_consumed_exactly_once (s : SharedState)
    (h : s.web_stop_requested = false) :
    (SharedState.check_web_requests (start_monitoring_web s)).1 = (true, false) ∧
    (SharedState.check_web_requests
      (SharedState.check_web_requests (start_monitoring_web s)).2).1 = (false, false) := by
  simp [SharedState.check_web_requests, start_monitoring_web, h]

/-- C2 witness: the scenario run from the freshly initialized state. -/
theorem c2_start_request_consumed_exactly_once_witness :
    (SharedState.check_web_requests (start_monitoring_web SharedState.init)).1
      = (true, false) ∧
    (SharedState.check_web_requests
      (SharedState.check_web_requests (start_monitoring_web SharedState.init)).2).1
      = (false, false) :=
  c2_start_request_consumed_exactly_once SharedState.init (by decide)

/-- A state in which TTS initialization failed (`tts_engine = None`). -/
def stateNoEngine : SharedState :=
  { SharedState.init with tts_engine := false }

/-- C3 counterexample: when TTS initialization failed, the valid message
"hello" is answered with `success=true` yet is NOT enqueued to the
speech queue — refuting the claim that every valid message is enqueued. -/
theorem c3_counterexample_engine_down :
    (send_message "hello" stateNoEngine).1.success = true ∧
    (send_message "hello" stateNoEngine).2.tts_queue = stateNoEngine.tts_queue ∧
    stateNoEngine.tts_queue = [] := by
  decide

/-- C3 (amended): a message empty after trimming yields `success=false`
with the empty-message error; one longer than 500 characters after
trimming yields `success=false` with the length error; every other
message yields `success=true` and — provided the TTS engine initialized
successfully — is enqueued (appended to the speech queue); when the
engine is absent the queue is left unchanged. -/
theorem c3_send_message_validation (msg : String) (s : SharedState) :
    (pyStrip msg = "" →
      (send_message msg s).1 =
        { success := false, error := some "No message provided", message := none } ∧
      (send_message msg s).2 = s) ∧
    (pyStrip msg ≠ "" → (pyStrip msg).length > 500 →
      (send_message msg s).1 =
        { success := false, error := some "Message too long (max 500 characters)",
          message := none } ∧
      (send_message msg s).2 = s) ∧
    (pyStrip msg ≠ "" → (pyStrip msg).length ≤ 500 →
      (send_message msg s).1.success = true ∧
      (s.tts_engine = true →
        (send_message msg s).2.tts_queue = s.tts_queue ++ [pyStrip msg]) ∧
      (s.tts_engine = false →
        (send_message msg s).2.tts_queue = s.tts_queue)) := by
  refine ⟨fun he => ?_, fun hne hlong => ?_, fun hne hshort => ?_⟩
  · simp [send_message, he]
  · simp [send_message, hne, hlong]
  · have hnle : ¬ (pyStrip msg).length > 500 := by omega
    have hst := pyStrip_pyStrip_ne_empty hne
    refine ⟨by simp [send_message, hne, hnle], fun heng => ?_, fun heng => ?_⟩
    · simp [send_message, hne, hnle, SharedState.add_tts_message, heng, hst]
    · simp [send_message, hne, hnle, SharedState.add_tts_message, heng, hst]

/-- C3 witness: the 2-character message "hi" from the initialized state
(engine present) is accepted and enqueued. -/
theorem c3_send_message_validation_witness :
    pyStrip "hi" ≠ "" ∧ (pyStrip "hi").length ≤ 500 ∧
    ((send_message "hi" SharedState.init).1.success = true ∧
      (SharedState.init.tts_engine = true →
        (send_message "hi" SharedState.init).2.tts_queue
          = SharedState.init.tts_queue ++ [pyStrip "hi"])) :=
  ⟨by decide, by decide,
    ((c3_send_message_validation "hi" SharedState.init).2.2
        (by decide) (by decide)).1,
    fun h => (((c3_send_message_validation "hi" SharedState.init).2.2
        (by decide) (by decide)).2.1 h)⟩

/-- C10: with the TTS engine uninitialized, `add_tts_message` never
changes the queue, yet `send_message` still answers `success=true` for
any valid (non-empty after trimming, ≤ 500 characters) message — a
remote caller cannot tell a spoken message from a dropped one. -/
theorem c10_engine_down_silent_drop (msg : String) (s : SharedState)
    (heng : s.tts_engine = false) :
    (s.add_tts_message msg).tts_queue = s.tts_queue ∧
    (s.add_tts_message msg) = s ∧
    (pyStrip msg ≠ "" → (pyStrip msg).length ≤ 500 →
      (send_message msg s).1.success = true ∧
      (send_message msg s).2.tts_queue = s.tts_queue) := by
  have hadd : ∀ m : String, s.add_tts_message m = s := by
    intro m; simp [SharedState.add_tts_message, heng]
  refine ⟨by rw [hadd], hadd msg, fun hne hlen => ?_⟩
  have hnle : ¬ (pyStrip msg).length > 500 := by omega
  constructor
  · simp [send_message, hne, hnle]
  · simp [send_message, hne, hnle, hadd]

/-- C10 witness: the valid message "hello" against the engine-less state
is acknowledged but dropped. -/
theorem c10_engine_down_silent_drop_witness :
    stateNoEngine.tts_engine = false ∧
    (pyStrip "hello" ≠ "" ∧ (pyStrip "hello").length ≤ 500 ∧
      ((send_message "hello" stateNoEngine).1.success = true ∧
        (send_message "hello" stateNoEngine).2.tts_queue = stateNoEngine.tts_queue)) :=
  ⟨by decide, by decide, by decide,
    (c10_engine_down_silent_drop "hello" stateNoEngine (by decide)).2.2
      (by decide) (by decide)⟩

/-! ## Numeric primitives (the source's replacements for numpy) -/

open scoped Classical

/-- `linspace` (noise_alert.py:23-28): `num` evenly spaced points from
`start` to `stop`; a single point `[start]` when `num <= 1`. -/
noncomputable def linspace (start stop : ℝ) (num : ℕ) : List ℝ :=
  if num ≤ 1 then [start]
  else (List.range num).map
    (fun i : ℕ => start + ((stop - start) / ((num : ℝ) - 1)) * (i : ℝ))

/-- `clip` (noise_alert.py:30-34) on a single value. -/
noncomputable def clip (value minVal maxVal : ℝ) : ℝ :=
  max minVal (min maxVal value)

/-- `mean` (noise_alert.py:36-38). -/
noncomputable def mean (values : List ℝ) : ℝ :=
  values.sum / values.length

/-- `sign` (noise_alert.py:40-44) on a single value. -/
noncomputable def sign (x : ℝ) : ℝ :=
  if x > 0 then 1 else if x < 0 then -1 else 0

/-- Python `int()` applied to a float: truncation toward zero. -/
noncomputable def pyInt (x : ℝ) : ℤ :=
  if 0 ≤ x then ⌊x⌋ else ⌈x⌉

/-- `linspace` always returns `max 1 num` points. -/
theorem linspace_length (start stop : ℝ) (num : ℕ) :
    (linspace start stop num).length = max 1 num := by
  rw [linspace]
  split_ifs with h
  · simp only [List.length_singleton]
    omega
  · rw [List.length_map, List.length_range]
    omega

/-! ## Tone synthesizer (`gen_wave`) -/

/-- `gen_wave` (noise_alert.py:202-214): sample the requested waveform at
44100 Hz over `int(fs*ms/1000)` points and quantize to 16-bit integers
via `int(w * (volume/100) * 32767)`. The number of points is the exact
value of the Python float expression `int(fs*ms/1000)` for integer `ms`
(the float quotient's truncation agrees with natural division here). -/
noncomputable def gen_wave (shape : String) (freq : ℝ) (ms : ℕ) (volume : ℝ) :
    List ℤ :=
  let fs : ℕ := 44100
  let t := linspace 0 ((ms : ℝ) / 1000) (fs * ms / 1000)
  let wave : List ℝ :=
    if shape = "Sine" then
      t.map (fun ti => Real.sin (2 * Real.pi * freq * ti))
    else if shape = "Square" then
      t.map (fun ti => sign (Real.sin (2 * Real.pi * freq * ti)))
    else
      t.map (fun ti => 2 * (ti * freq - ⌊0.5 + ti * freq⌋))
  wave.map (fun w => pyInt (w * (volume / 100) * 32767))

/-- The output sample count of `gen_wave`, shared by all shapes. -/
theorem gen_wave_length (shape : String) (freq : ℝ) (ms : ℕ) (volume : ℝ) :
    (gen_wave shape freq ms volume).length = max 1 (44100 * ms / 1000) := by
  rw [gen_wave]
  split_ifs <;> simp [linspace_length]

/-- C5 (amended): for every shape, frequency, volume and integer duration
the synthesizer's output length equals the truncation
`int(44100*duration_ms/1000)` when that is at least 1, and is one sample
when the truncation is 0 (`linspace` returns a single point for
`num <= 1`) — not `round(44100*duration_ms/1000)`. -/
theorem c5_output_length_is_truncation (shape : String) (freq : ℝ) (ms : ℕ)
    (volume : ℝ) :
    (gen_wave shape freq ms volume).length = max 1 (44100 * ms / 1000) :=
  gen_wave_length shape freq ms volume

/-- C5 counterexample: at 35 ms the output has `int(1543.5) = 1543`
samples, while the claimed `round(44100*35/1000) = round(1543.5) = 1544`. -/
theorem c5_counterexample_round_vs_truncation :
    ((gen_wave "Sine" 440 35 50).length : ℤ) ≠ round ((44100 * 35 : ℝ) / 1000) := by
  have h1 : (gen_wave "Sine" 440 35 50).length = 1543 := by
    rw [gen_wave_length]
    norm_num
  have h2 : round ((44100 * 35 : ℝ) / 1000) = 1544 := by
    rw [round_eq]
    have h3 : (44100 * 35 : ℝ) / 1000 + 1 / 2 = ((1544 : ℤ) : ℝ) := by norm_num
    rw [h3, Int.floor_intCast]
  rw [h1, h2]
  decide

/-- Refinement side, stated from the spec's words: the per-sample shape
formula — sine `sin(2*pi*f*t)`, square the sign of the sine wave,
sawtooth `2*(f*t - floor(0.5 + f*t))`. -/
noncomputable def specShapeValue (shape : String) (freq t : ℝ) : ℝ :=
  if shape = "Sine" then Real.sin (2 * Real.pi * freq * t)
  else if shape = "Square" then sign (Real.sin (2 * Real.pi * freq * t))
  else 2 * (freq * t - ⌊0.5 + freq * t⌋)

/-- Refinement side, stated from the spec's words: scale by `volume/100`,
multiply by 32767 and truncate toward zero to a 16-bit signed sample. -/
noncomputable def specQuantize (w volume : ℝ) : ℤ :=
  pyInt (w * (volume / 100) * 32767)

/-- C6: `gen_wave` equals, pointwise over its time points, the spec's
shape formula scaled linearly by `volume/100` and quantized by
multiplication with 32767 and truncation toward zero. -/
theorem c6_samples_follow_spec_formula (shape : String) (freq : ℝ) (ms : ℕ)
    (volume : ℝ) :
    gen_wave shape freq ms volume
      = (linspace 0 ((ms : ℝ) / 1000) (44100 * ms / 1000)).map
          (fun t => specQuantize (specShapeValue shape freq t) volume) := by
  rw [gen_wave]
  split_ifs with h1 h2
  · rw [List.map_map]
    refine List.map_congr_left fun t ht => ?_
    simp [specQuantize, specShapeValue, h1, Function.comp]
  · rw [List.map_map]
    refine List.map_congr_left fun t ht => ?_
    simp [specQuantize, specShapeValue, h1, h2, Function.comp]
  · rw [List.map_map]
    refine List.map_congr_left fun t ht => ?_
    simp only [specQuantize, specShapeValue, if_neg h1, if_neg h2, Function.comp]
    rw [mul_comm t freq]

/-! ## Level estimator -/

/-- `Monitor.rms_to_db` (noise_alert.py:244-245). -/
noncomputable def Monitor.rms_to_db (rms : ℝ) : ℝ :=
  20 * Real.logb 10 (rms + 1e-10)

/-- The loudness one monitor cycle computes from the raw capture buffer
(noise_alert.py:280-283): clip each sample to [-1, 1], take the RMS,
convert to decibels. -/
noncomputable def monitorDb (rec_flat : List ℝ) : ℝ :=
  Monitor.rms_to_db
    (Real.sqrt (mean ((rec_flat.map (fun v => clip v (-1) 1)).map (fun r => r * r))))

/-- The epsilon of `rms_to_db` is an exact power of ten, so silence maps
to exactly -200 dB. -/
theorem logb_ten_epsilon : Real.logb 10 (1e-10 : ℝ) = -10 := by
  have h10 : (1e-10 : ℝ) = (10 : ℝ) ^ (-10 : ℤ) := by norm_num
  rw [h10, Real.logb, Real.log_zpow, mul_div_assoc,
    div_self (Real.log_pos (by norm_num)).ne']
  norm_num

/-- C1: on every non-empty all-zero capture buffer the monitor's loudness
is exactly -200 dB — a (finite) real number — and in particular at most
-180 dB. -/
theorem c1_all_zero_buffer_db (buf : List ℝ) (hne : buf ≠ [])
    (hz : ∀ x ∈ buf, x = 0) :
    monitorDb buf = -200 ∧ monitorDb buf ≤ -180 := by
  have hsum : ((buf.map (fun v => clip v (-1) 1)).map (fun r => r * r)).sum = 0 := by
    apply List.sum_eq_zero
    intro x hx
    simp only [List.mem_map] at hx
    obtain ⟨r, ⟨v, hv, rfl⟩, rfl⟩ := hx
    rw [hz v hv]
    norm_num [clip]
  have h0 : monitorDb buf = -200 := by
    rw [monitorDb, mean, hsum, zero_div, Real.sqrt_zero, Monitor.rms_to_db,
      zero_add, logb_ten_epsilon]
    norm_num
  exact ⟨h0, by rw [h0]; norm_num⟩

/-- C1 witness: the three-sample silent buffer. -/
theorem c1_all_zero_buffer_db_witness :
    monitorDb [(0 : ℝ), 0, 0] = -200 ∧ monitorDb [(0 : ℝ), 0, 0] ≤ -180 :=
  c1_all_zero_buffer_db [(0 : ℝ), 0, 0] (by simp) (by simp)

/-! ## Monitor loop (`Monitor.run`) -/

/-- The settings dict pushed by `push_settings` (noise_alert.py:1821-1829). -/
structure Settings where
  thresh : ℝ
  shape : String
  freq : ℝ
  dur : ℕ
  vol : ℝ
  fs : ℕ
  chunk : ℝ
  delay : ℝ
  device : Option ℕ
  output_device : Option ℕ

/-- An event the monitor thread publishes to the UI queue `q_ui`. -/
inductive UiEvent where
  | err (msg : String)
  | db (value : ℝ)

/-- The loop-local state of `Monitor.run`: the thread's stop event, the
events pushed to `q_ui` so far, and the lines printed so far. -/
structure LoopState where
  stop_evt : Bool
  uiEvents : List UiEvent
  printed : List String

/-- `play_tone` (noise_alert.py:216-235): synthesize the wave and write
it to the output device. `deviceOutcome` stands for the PyAudio calls,
which in the source may raise; every failure is caught and printed, and
the function always returns (first component: lines printed; second:
the audio actually written, `none` when playback failed). -/
noncomputable def play_tone (shape : String) (freq : ℝ) (ms : ℕ) (vol : ℝ)
    (deviceOutcome : Except String Unit) : List String × Option (List ℤ) :=
  match deviceOutcome with
  | .ok _ => ([], some (gen_wave shape freq ms vol))
  | .error e => (["Error playing tone: " ++ e], none)

/-- One iteration of the cycling loop of `Monitor.run` once settings are
present (noise_alert.py:256-289). `captureResult` stands for the pyaudio
open/read of the input device (`.error e` when it raises `e`), and
`playbackOutcome` for the output-device calls inside `play_tone`.
Returns the successor state and `true` exactly when the iteration ran
`break` (left the cycling loop). -/
noncomputable def monitorCycle (settings : Settings)
    (captureResult : Except String (List ℝ))
    (playbackOutcome : Except String Unit)
    (s : LoopState) : LoopState × Bool :=
  match captureResult with
  | .error e =>
      ({ s with stop_evt := true, uiEvents := s.uiEvents ++ [.err e] }, true)
  | .ok rec_flat =>
      let db := monitorDb rec_flat
      let s1 := { s with uiEvents := s.uiEvents ++ [.db db] }
      if db > settings.thresh then
        ({ s1 with printed := s1.printed ++ (play_tone settings.shape settings.freq
            settings.dur settings.vol playbackOutcome).1 }, false)
      else (s1, false)

/-- The cycling loop of `Monitor.run`, driven by a script of per-cycle
hardware outcomes; returns the final state together with the number of
capture attempts performed (the loop re-checks `stop_evt` before every
cycle and stops forever once an iteration broke out). -/
noncomputable def monitorRun (settings : Settings) (s : LoopState) :
    List (Except String (List ℝ) × Except String Unit) → LoopState × ℕ
  | [] => (s, 0)
  | (cap, pb) :: rest =>
      if s.stop_evt then (s, 0)
      else
        match monitorCycle settings cap pb s with
        | (s1, true) => (s1, 1)
        | (s1, false) =>
            let r := monitorRun settings s1 rest
            (r.1, r.2 + 1)

/-- C4: a cycle whose capture raises publishes the ("ERR", message)
event, sets the stop event and breaks out; run from such a cycle the
loop performs exactly one capture attempt no matter what outcomes
follow — it never auto-retries. -/
theorem c4_capture_error_is_fatal (settings : Settings) (e : String)
    (pb : Except String Unit) (s : LoopState) (hs : s.stop_evt = false)
    (rest : List (Except String (List ℝ) × Except String Unit)) :
    monitorCycle settings (.error e) pb s
      = ({ s with stop_evt := true, uiEvents := s.uiEvents ++ [.err e] }, true) ∧
    monitorRun settings s ((.error e, pb) :: rest)
      = ({ s with stop_evt := true, uiEvents := s.uiEvents ++ [.err e] }, 1) := by
  refine ⟨rfl, ?_⟩
  rw [monitorRun]
  simp [hs, monitorCycle]

/-- C4 witness: a concrete failing capture. -/
theorem c4_capture_error_is_fatal_witness :
    monitorCycle
        { thresh := -30, shape := "Sine", freq := 1000, dur := 200, vol := 50,
          fs := 44100, chunk := 0.1, delay := 0.02, device := none,
          output_device := none }
        (.error "device unavailable") (.ok ())
        { stop_evt := false, uiEvents := [], printed := [] }
      = ({ stop_evt := true, uiEvents := [.err "device unavailable"],
           printed := [] }, true) ∧
    monitorRun
        { thresh := -30, shape := "Sine", freq := 1000, dur := 200, vol := 50,
          fs := 44100, chunk := 0.1, delay := 0.02, device := none,
          output_device := none }
        { stop_evt := false, uiEvents := [], printed := [] }
        [(.error "device unavailable", .ok ())]
      = ({ stop_evt := true, uiEvents := [.err "device unavailable"],
           printed := [] }, 1) :=
  c4_capture_error_is_fatal
    { thresh := -30, shape := "Sine", freq := 1000, dur := 200, vol := 50,
      fs := 44100, chunk := 0.1, delay := 0.02, device := none,
      output_device := none }
    "device unavailable" (.ok ())
    { stop_evt := false, uiEvents := [], printed := [] } rfl []

/-- C7: `play_tone` never propagates a failure — a device error is only
printed — and a cycle with a successful capture never breaks the loop
and leaves the stop event untouched, whatever the playback outcome. -/
theorem c7_playback_failure_nonfatal (shape : String) (freq : ℝ) (ms : ℕ)
    (vol : ℝ) (e : String) (settings : Settings) (samples : List ℝ)
    (pb : Except String Unit) (s : LoopState) :
    play_tone shape freq ms vol (.error e)
      = (["Error playing tone: " ++ e], none) ∧
    (monitorCycle settings (.ok samples) pb s).2 = false ∧
    (monitorCycle settings (.ok samples) pb s).1.stop_evt = s.stop_evt ∧
    (monitorCycle settings (.ok samples) pb s).1.uiEvents
      = s.uiEvents ++ [.db (monitorDb samples)] := by
  refine ⟨rfl, ?_, ?_, ?_⟩ <;>
    · rw [monitorCycle]
      split <;> rfl

/-! ## Calibration routine (`calibrate`) -/

/-- Python `round(x, 1)`: round to one decimal place. (The source rounds
a float; exact decimal ties, where Python would round half to even, do
not occur for the logarithm-derived values fed to it.) -/
noncomputable def round1 (x : ℝ) : ℝ :=
  ((round (x * 10) : ℤ) : ℝ) / 10

/-- The RMS `calibrate` computes from its 2-second capture
(noise_alert.py:1923-1924): clip to [-1, 1], mean of squares, sqrt. -/
noncomputable def calibrationRms (rec_flat : List ℝ) : ℝ :=
  Real.sqrt (mean ((rec_flat.map (fun v => clip v (-1) 1)).map (fun r => r * r)))

/-- The ambient level `calibrate` reports (noise_alert.py:1925-1928):
-100 for an RMS below 1e-10, else `20*log10(rms)`. (The source's
`isfinite` re-check is an identity here: both branches are real.) -/
noncomputable def calibrationAmbient (rec_flat : List ℝ) : ℝ :=
  if calibrationRms rec_flat < 1e-10 then -100
  else 20 * Real.logb 10 (calibrationRms rec_flat)

/-- The suggested threshold (noise_alert.py:1930-1934): ambient plus 10,
rounded to one decimal, floored at -50. (The source's final `isfinite`
guard substituting -30.0 is an identity over the reals.) -/
noncomputable def calibrationSuggested (rec_flat : List ℝ) : ℝ :=
  max (round1 (calibrationAmbient rec_flat + 10)) (-50)

/-- The outcome of one run of `calibrate` (noise_alert.py:1890-1946):
a recording error dialog, the insufficient-signal dialog, or success
with the ambient level and the new threshold applied to the threshold
control. Only `success` touches any monitoring state. -/
inductive CalibOutcome where
  | recordError (msg : String)
  | insufficient (msg : String)
  | success (ambient newValue : ℝ)

/-- `calibrate` (noise_alert.py:1890-1946), its audio/numeric core: the
GUI progress window is omitted and `captureResult` stands for the
pyaudio 2-second record (`.error e` when it raises `e`). -/
noncomputable def calibrate (captureResult : Except String (List ℝ)) :
    CalibOutcome :=
  match captureResult with
  | .error e => .recordError ("Could not record audio: " ++ e)
  | .ok rec_flat =>
      if rec_flat.length = 0 ∨ ∀ r ∈ rec_flat, r = 0 then
        .insufficient "No audio data received. Please check your microphone."
      else
        .success (calibrationAmbient rec_flat) (calibrationSuggested rec_flat)

/-- C8: calibration on an empty or all-zero capture reports the
insufficient-signal error and, in particular, produces no threshold
(no `success` outcome, hence no mutation of the threshold control). -/
theorem c8_silent_calibration_insufficient (buf : List ℝ)
    (h : buf = [] ∨ ∀ r ∈ buf, r = 0) :
    calibrate (.ok buf)
      = .insufficient "No audio data received. Please check your microphone." ∧
    ∀ ambient newValue, calibrate (.ok buf) ≠ .success ambient newValue := by
  have hcond : buf.length = 0 ∨ ∀ r ∈ buf, r = 0 := by
    rcases h with h | h
    · exact Or.inl (by rw [h]; rfl)
    · exact Or.inr h
  constructor
  · rw [calibrate, if_pos hcond]
  · intro ambient newValue
    rw [calibrate, if_pos hcond]
    intro hfalse
    exact CalibOutcome.noConfusion hfalse

/-- C8 witness: the two-sample silent buffer. -/
theorem c8_silent_calibration_insufficient_witness :
    calibrate (.ok [(0 : ℝ), 0])
      = .insufficient "No audio data received. Please check your microphone." ∧
    ∀ ambient newValue, calibrate (.ok [(0 : ℝ), 0]) ≠ .success ambient newValue :=
  c8_silent_calibration_insufficient [(0 : ℝ), 0] (Or.inr (by simp))

/-- C9: on every non-silent capture, calibration succeeds with suggested
threshold `max (round1 (ambient + 10)) (-50)` — ambient plus 10 rounded
to one decimal, clamped to not fall below -50 — so the suggested
threshold is a real number that is at least -50. -/
theorem c9_suggested_threshold (buf : List ℝ) (hne : buf ≠ [])
    (hnz : ¬ ∀ r ∈ buf, r = 0) :
    calibrate (.ok buf)
      = .success (calibrationAmbient buf)
          (max (round1 (calibrationAmbient buf + 10)) (-50)) ∧
    -50 ≤ calibrationSuggested buf := by
  have hcond : ¬ (buf.length = 0 ∨ ∀ r ∈ buf, r = 0) := by
    rintro (h | h)
    · exact hne (List.length_eq_zero.1 h)
    · exact hnz h
  constructor
  · rw [calibrate, if_neg hcond]
    rfl
  · exact le_max_right _ _

/-- C9 witness: the single-sample full-scale buffer `[1]`. -/
theorem c9_suggested_threshold_witness :
    calibrate (.ok [(1 : ℝ)])
      = .success (calibrationAmbient [(1 : ℝ)])
          (max (round1 (calibrationAmbient [(1 : ℝ)] + 10)) (-50)) ∧
    -50 ≤ calibrationSuggested [(1 : ℝ)] :=
  c9_suggested_threshold [(1 : ℝ)] (by simp) (by norm_num)
